import Mathlib

/-!
# Pointer-interaction state machine of `Control3D` (Babylon.js GUI 3D)

Shallow embedding of `src/gui/src/3D/controls/control3D.ts`.

A `ControlState` holds the per-control mutable fields of the TS class
(`_downCount`, `_enterCount`, `_downPointerIds`, the six observables'
subscriber lists, the four optional animation callbacks — modelled as
Booleans saying whether a callback is set — and `_behaviors`).
Mesh/material plumbing (`_mesh`, `prepareMesh`, `linkToMesh`,
`_createMesh`, `_affectMaterial`, `isVisible`, `position`) is outside the
modelled core and carries no state the pointer claims touch.

Controls are identified by natural numbers; the world maps ids to states.
The shared `GUI3DManager` bookkeeping (`_lastControlOver`,
`_lastControlDown`, `_lastPickedControl`) is an explicit structure; the
JS objects keyed by pointer id are modelled as association lists.

Each operation returns the new state together with a trace of emitted
events: `Ev.notify` records one `notifyObservers` call (firing control,
channel, payload, target argument), `Ev.anim` records an animation-hook
invocation, and `Ev.init`/`Ev.attach`/`Ev.detach` record behavior
lifecycle calls. Delivery of a notification to subscribers is derived
from the trace and the firing control's subscriber lists (`deliveriesOf`),
which is what `Observable.clear` in `dispose` cuts off.
-/

namespace BabylonGUI

/-- `BABYLON.Vector3`: only constructed and passed through here, never
computed with, so integer components suffice for the embedding. -/
structure Vector3 where
  x : Int
  y : Int
  z : Int
deriving DecidableEq

/-- `Vector3.Zero()` -/
def Vector3.Zero : Vector3 := ⟨0, 0, 0⟩

/-- The six notification channels of a control. -/
inductive Channel where
  | move
  | out
  | down
  | up
  | click
  | enter
deriving DecidableEq

/-- The four optional animation callbacks. -/
inductive AnimKind where
  | enterAnim
  | outAnim
  | downAnim
  | upAnim
deriving DecidableEq

/-- Payload passed to `notifyObservers`: a `Vector3` for move, the control
itself for enter/out, a `Vector3WithInfo` (coordinates + buttonIndex) for
down/up/click. -/
inductive Payload where
  | vec (v : Vector3)
  | ctrl (c : Nat)
  | vecInfo (v : Vector3) (buttonIndex : Nat)
deriving DecidableEq

/-- One observable event of a run: a `notifyObservers` call, an animation
hook invocation, or a behavior lifecycle call. -/
inductive Ev where
  | notify (src : Nat) (ch : Channel) (payload : Payload) (target : Nat)
  | anim (src : Nat) (k : AnimKind)
  | init (b : Nat)
  | attach (b : Nat)
  | detach (b : Nat)
deriving DecidableEq

/-- Is the event a `notifyObservers` call (a notification firing)? -/
def isNotify : Ev → Bool
  | Ev.notify _ _ _ _ => true
  | _ => false

/-- The notification events of a trace, animation hooks and behavior
lifecycle calls filtered out. -/
def notifs (tr : List Ev) : List Ev := tr.filter isNotify

/-- Count the notifications a given control fires on a given channel. -/
def countNotify (tr : List Ev) (src : Nat) (ch : Channel) : Nat :=
  (tr.filter fun e =>
    match e with
    | Ev.notify s c _ _ => decide (s = src) && decide (c = ch)
    | _ => false).length

/-- Mutable per-control state of the TS class `Control3D`. -/
structure ControlState where
  downCount : Nat
  enterCount : Nat
  downPointerIds : List Nat
  moveObservers : List Nat
  outObservers : List Nat
  downObservers : List Nat
  upObservers : List Nat
  clickObservers : List Nat
  enterObservers : List Nat
  pointerEnterAnimation : Bool
  pointerOutAnimation : Bool
  pointerDownAnimation : Bool
  pointerUpAnimation : Bool
  behaviors : List Nat
deriving DecidableEq

/-- A freshly constructed control: all counters zero, every collection
empty, no animation callbacks set. -/
def ControlState.fresh : ControlState :=
  ⟨0, 0, [], [], [], [], [], [], [], false, false, false, false, []⟩

/-- Subscriber list of one channel's observable. -/
def observersFor (c : ControlState) : Channel → List Nat
  | Channel.move => c.moveObservers
  | Channel.out => c.outObservers
  | Channel.down => c.downObservers
  | Channel.up => c.upObservers
  | Channel.click => c.clickObservers
  | Channel.enter => c.enterObservers

/-- Deliveries of a trace's notifications to the subscribers of control
`selfId`, given its state `c`: each `notifyObservers` call by `selfId`
reaches every current subscriber of that channel. -/
def deliveriesOf (c : ControlState) (selfId : Nat) (tr : List Ev) : List (Nat × Ev) :=
  tr.flatMap fun e =>
    match e with
    | Ev.notify s ch _ _ =>
        if s = selfId then (observersFor c ch).map (fun o => (o, e)) else []
    | _ => []

/-- Animation-hook invocation: fires the hook event when the callback is
set (`if (this.pointerXAnimation) this.pointerXAnimation();`). -/
def animCall (flag : Bool) (selfId : Nat) (k : AnimKind) : List Ev :=
  if flag then [Ev.anim selfId k] else []

/-- JS `this._downPointerIds[pointerId] = true`: object key insertion. -/
def insertId (ids : List Nat) (pid : Nat) : List Nat :=
  if pid ∈ ids then ids else ids ++ [pid]

/-- JS `delete this._downPointerIds[pointerId]`: object key removal. -/
def removeId (ids : List Nat) (pid : Nat) : List Nat :=
  ids.filter fun x => x ≠ pid

/-- `_onPointerMove(target, coordinates)`: fires the move notification,
changes no state. -/
def _onPointerMove (c : ControlState) (selfId target : Nat) (coordinates : Vector3) :
    ControlState × List Ev :=
  (c, [Ev.notify selfId Channel.move (Payload.vec coordinates) target])

/-- `_onPointerEnter(target)`: guarded by `_enterCount !== 0`; on success
increments the counter, fires the enter notification and the enter
animation hook, returns `true`. -/
def _onPointerEnter (c : ControlState) (selfId target : Nat) :
    ControlState × Bool × List Ev :=
  if c.enterCount ≠ 0 then
    (c, false, [])
  else
    ({ c with enterCount := c.enterCount + 1 }, true,
      Ev.notify selfId Channel.enter (Payload.ctrl selfId) target ::
        animCall c.pointerEnterAnimation selfId AnimKind.enterAnim)

/-- `_onPointerOut(target)`: unconditionally resets `_enterCount` to 0,
fires the out notification and the out animation hook. -/
def _onPointerOut (c : ControlState) (selfId target : Nat) :
    ControlState × List Ev :=
  ({ c with enterCount := 0 },
    Ev.notify selfId Channel.out (Payload.ctrl selfId) target ::
      animCall c.pointerOutAnimation selfId AnimKind.outAnim)

/-- `_onPointerDown(target, coordinates, pointerId, buttonIndex)`: guarded
by `_downCount !== 0`; on success increments the counter, records the
pointer id, fires the down notification and the down animation hook,
returns `true`. -/
def _onPointerDown (c : ControlState) (selfId target : Nat) (coordinates : Vector3)
    (pointerId buttonIndex : Nat) : ControlState × Bool × List Ev :=
  if c.downCount ≠ 0 then
    (c, false, [])
  else
    ({ c with
        downCount := c.downCount + 1,
        downPointerIds := insertId c.downPointerIds pointerId }, true,
      Ev.notify selfId Channel.down (Payload.vecInfo coordinates buttonIndex) target ::
        animCall c.pointerDownAnimation selfId AnimKind.downAnim)

/-- `_onPointerUp(target, coordinates, pointerId, buttonIndex, notifyClick)`:
unconditionally resets `_downCount` to 0 and deletes the pointer id; fires
click (when `notifyClick && this._enterCount > 0`) before up, then the up
animation hook. -/
def _onPointerUp (c : ControlState) (selfId target : Nat) (coordinates : Vector3)
    (pointerId buttonIndex : Nat) (notifyClick : Bool) :
    ControlState × List Ev :=
  ({ c with
      downCount := 0,
      downPointerIds := removeId c.downPointerIds pointerId },
    (if notifyClick = true ∧ 0 < c.enterCount then
      [Ev.notify selfId Channel.click (Payload.vecInfo coordinates buttonIndex) target]
    else []) ++
    [Ev.notify selfId Channel.up (Payload.vecInfo coordinates buttonIndex) target] ++
    animCall c.pointerUpAnimation selfId AnimKind.upAnim)

/-- The `for(var key in this._downPointerIds)` loop of `forcePointerUp(null)`:
each iteration synthesizes `_onPointerUp(this, Vector3.Zero(), key, 0, true)`;
deleting the current key inside `_onPointerUp` does not skip later keys,
so the loop visits every key the object held at entry. -/
def forceUpLoop (selfId : Nat) : ControlState → List Nat → ControlState × List Ev
  | c, [] => (c, [])
  | c, pid :: rest =>
      let step := _onPointerUp c selfId selfId Vector3.Zero pid 0 true
      let more := forceUpLoop selfId step.1 rest
      (more.1, step.2 ++ more.2)

/-- `forcePointerUp(pointerId = null)`: with an id, synthesizes one up at
the zero coordinate with `notifyClick = true`; with none, does so for every
id currently in `_downPointerIds`. -/
def forcePointerUp (c : ControlState) (selfId : Nat) (pointerId : Option Nat) :
    ControlState × List Ev :=
  match pointerId with
  | some pid => _onPointerUp c selfId selfId Vector3.Zero pid 0 true
  | none => forceUpLoop selfId c c.downPointerIds

/-- `dispose()`: clears the six observables' subscriber lists and calls
`detach()` on every behavior, leaving `_behaviors` itself unchanged. (The
`_mesh` disposal branch is mesh plumbing outside the modelled core.) -/
def dispose (c : ControlState) : ControlState × List Ev :=
  ({ c with
      moveObservers := [], outObservers := [], downObservers := [],
      upObservers := [], clickObservers := [], enterObservers := [] },
    c.behaviors.map Ev.detach)

/-- Lookup in a JS object keyed by pointer id, modelled as an association
list (`m[k]`, `undefined` ↦ `none`). -/
def lookupA : List (Nat × Nat) → Nat → Option Nat
  | [], _ => none
  | (k, v) :: rest, key => if k = key then some v else lookupA rest key

/-- `m[k] = v` on a JS object: the key now maps to `v`. -/
def setA (m : List (Nat × Nat)) (k v : Nat) : List (Nat × Nat) :=
  (k, v) :: m.filter fun p => p.1 ≠ k

/-- `delete m[k]` on a JS object: the key is gone. -/
def eraseA (m : List (Nat × Nat)) (k : Nat) : List (Nat × Nat) :=
  m.filter fun p => p.1 ≠ k

/-- The shared `GUI3DManager` bookkeeping consumed by `_processObservables`. -/
structure GUI3DManager where
  _lastControlOver : List (Nat × Nat)
  _lastControlDown : List (Nat × Nat)
  _lastPickedControl : Option Nat
deriving DecidableEq

/-- A world: the states of all controls (by id) plus the shared manager. -/
structure World where
  controls : Nat → ControlState
  host : GUI3DManager

/-- Replace the state of one control. -/
def updateControl (w : World) (cid : Nat) (c : ControlState) : World :=
  { w with controls := fun i => if i = cid then c else w.controls i }

/-- `BABYLON.PointerEventTypes.POINTERDOWN` -/
def POINTERDOWN : Nat := 1
/-- `BABYLON.PointerEventTypes.POINTERUP` -/
def POINTERUP : Nat := 2
/-- `BABYLON.PointerEventTypes.POINTERMOVE` -/
def POINTERMOVE : Nat := 4

/-- `_processObservables(type, pickedPoint, pointerId, buttonIndex)` run on
control `selfId`: the routing entry point, dispatching on the event type
and reading/writing the manager's per-pointer maps. -/
def _processObservables (w : World) (selfId : Nat) (type : Nat)
    (pickedPoint : Vector3) (pointerId buttonIndex : Nat) :
    World × Bool × List Ev :=
  if type = POINTERMOVE then
    let moveStep := _onPointerMove (w.controls selfId) selfId selfId pickedPoint
    let w1 := updateControl w selfId moveStep.1
    let previousControlOver := lookupA w1.host._lastControlOver pointerId
    let outStep :=
      match previousControlOver with
      | some prev =>
          if prev ≠ selfId then
            let o := _onPointerOut (w1.controls prev) prev selfId
            (updateControl w1 prev o.1, o.2)
          else (w1, ([] : List Ev))
      | none => (w1, ([] : List Ev))
    let enterStep :=
      if previousControlOver ≠ some selfId then
        let e := _onPointerEnter (outStep.1.controls selfId) selfId selfId
        (updateControl outStep.1 selfId e.1, e.2.2)
      else (outStep.1, ([] : List Ev))
    let w4 := { enterStep.1 with host :=
      { enterStep.1.host with
          _lastControlOver := setA enterStep.1.host._lastControlOver pointerId selfId } }
    (w4, true, moveStep.2 ++ outStep.2 ++ enterStep.2)
  else if type = POINTERDOWN then
    let d := _onPointerDown (w.controls selfId) selfId selfId pickedPoint pointerId buttonIndex
    let w1 := updateControl w selfId d.1
    let w2 := { w1 with host :=
      { w1.host with
          _lastControlDown := setA w1.host._lastControlDown pointerId selfId,
          _lastPickedControl := some selfId } }
    (w2, true, d.2.2)
  else if type = POINTERUP then
    match lookupA w.host._lastControlDown pointerId with
    | some prev =>
        let u := _onPointerUp (w.controls prev) prev selfId pickedPoint pointerId buttonIndex true
        let w1 := updateControl w prev u.1
        let w2 := { w1 with host :=
          { w1.host with _lastControlDown := eraseA w1.host._lastControlDown pointerId } }
        (w2, true, u.2)
    | none =>
        let w2 := { w with host :=
          { w.host with _lastControlDown := eraseA w.host._lastControlDown pointerId } }
        (w2, true, [])
  else
    (w, false, [])

/-- The scene surface `addBehavior` consumes: `isLoading` plus the pending
`addOnce` subscribers of `onDataLoadedObservable` (the behavior each
deferred closure will attach). -/
structure SceneState where
  isLoading : Bool
  onceCallbacks : List Nat
deriving DecidableEq

/-- `addBehavior(behavior)`: no-op when already present (`indexOf`); else
`init()`, then either immediate `attach(this)` or a deferred `addOnce`
attach when the scene is loading, then `push`. -/
def addBehavior (c : ControlState) (s : SceneState) (b : Nat) :
    ControlState × SceneState × List Ev :=
  if b ∈ c.behaviors then
    (c, s, [])
  else if s.isLoading then
    ({ c with behaviors := c.behaviors ++ [b] },
     { s with onceCallbacks := s.onceCallbacks ++ [b] },
     [Ev.init b])
  else
    ({ c with behaviors := c.behaviors ++ [b] }, s,
     [Ev.init b, Ev.attach b])

/-- `onDataLoadedObservable` notifying: every `addOnce` subscriber runs
once and is removed, so the deferred attaches fire exactly once. -/
def onDataLoaded (s : SceneState) : SceneState × List Ev :=
  ({ s with onceCallbacks := [] }, s.onceCallbacks.map Ev.attach)

/-- Iterated `_onPointerEnter` on one control: result state, the Boolean
each call returned (in order), and the concatenated trace. -/
def enterCalls (selfId target : Nat) : ControlState → Nat → ControlState × List Bool × List Ev
  | c, 0 => (c, [], [])
  | c, n + 1 =>
      let step := _onPointerEnter c selfId target
      let rest := enterCalls selfId target step.1 n
      (rest.1, step.2.1 :: rest.2.1, step.2.2 ++ rest.2.2)

/-- Is the event an up notification? -/
def isUpNotify : Ev → Bool
  | Ev.notify _ Channel.up _ _ => true
  | _ => false

/-- Is the event a click notification? -/
def isClickNotify : Ev → Bool
  | Ev.notify _ Channel.click _ _ => true
  | _ => false

/-- One pointer operation invoked directly on a control (as the Manager or
host would after disposal): the five `_onPointerX` entry points plus
`forcePointerUp`. -/
inductive PtrOp where
  | moveOp (target : Nat) (coordinates : Vector3)
  | enterOp (target : Nat)
  | outOp (target : Nat)
  | downOp (target : Nat) (coordinates : Vector3) (pointerId buttonIndex : Nat)
  | upOp (target : Nat) (coordinates : Vector3) (pointerId buttonIndex : Nat) (notifyClick : Bool)
  | forceOp (pointerId : Option Nat)

/-- Run one pointer operation on a control, dropping Boolean results. -/
def runOp (c : ControlState) (selfId : Nat) : PtrOp → ControlState × List Ev
  | PtrOp.moveOp t v => _onPointerMove c selfId t v
  | PtrOp.enterOp t => ((_onPointerEnter c selfId t).1, (_onPointerEnter c selfId t).2.2)
  | PtrOp.outOp t => _onPointerOut c selfId t
  | PtrOp.downOp t v pid b => ((_onPointerDown c selfId t v pid b).1, (_onPointerDown c selfId t v pid b).2.2)
  | PtrOp.upOp t v pid b nc => _onPointerUp c selfId t v pid b nc
  | PtrOp.forceOp pid => forcePointerUp c selfId pid

/-! ## General lemmas about the embedding -/

@[simp]
theorem notifs_nil : notifs [] = [] := rfl

@[simp]
theorem notifs_append (l₁ l₂ : List Ev) : notifs (l₁ ++ l₂) = notifs l₁ ++ notifs l₂ :=
  List.filter_append _ _

@[simp]
theorem notifs_cons_notify (s : Nat) (ch : Channel) (p : Payload) (t : Nat) (tr : List Ev) :
    notifs (Ev.notify s ch p t :: tr) = Ev.notify s ch p t :: notifs tr := rfl

@[simp]
theorem notifs_animCall (flag : Bool) (selfId : Nat) (k : AnimKind) :
    notifs (animCall flag selfId k) = [] := by
  cases flag <;> rfl

@[simp]
theorem updateControl_host (w : World) (cid : Nat) (c : ControlState) :
    (updateControl w cid c).host = w.host := rfl

@[simp]
theorem updateControl_controls (w : World) (cid : Nat) (c : ControlState) (j : Nat) :
    (updateControl w cid c).controls j = if j = cid then c else w.controls j := rfl

@[simp]
theorem lookupA_setA_self (m : List (Nat × Nat)) (k v : Nat) :
    lookupA (setA m k v) k = some v := by
  simp [lookupA, setA]

@[simp]
theorem lookupA_eraseA_self (m : List (Nat × Nat)) (k : Nat) :
    lookupA (eraseA m k) k = none := by
  induction m with
  | nil => rfl
  | cons a rest ih =>
      by_cases h : a.1 = k
      · simpa [eraseA, h] using ih
      · simpa [eraseA, h, lookupA] using ih

theorem mem_insertId (ids : List Nat) (pid : Nat) : pid ∈ insertId ids pid := by
  unfold insertId
  split
  · assumption
  · simp

theorem not_mem_removeId (ids : List Nat) (pid : Nat) : pid ∉ removeId ids pid := by
  simp [removeId]

/-! ## Claim theorems -/

/-- C5: Down guard law: when `_downCount ≠ 0`, `_onPointerDown` returns
`false`, fires nothing and leaves the whole state — in particular
`_downPointerIds` — unchanged; when `_downCount = 0` it increments the
counter, records the pointer id, fires the down notification carrying the
coordinate and button index, and returns `true`. -/
theorem onPointerDown_guard_law (c : ControlState) (selfId target : Nat)
    (coordinates : Vector3) (pointerId buttonIndex : Nat) :
    (c.downCount ≠ 0 →
      _onPointerDown c selfId target coordinates pointerId buttonIndex = (c, false, [])) ∧
    (c.downCount = 0 →
      (_onPointerDown c selfId target coordinates pointerId buttonIndex).1.downCount = c.downCount + 1 ∧
      pointerId ∈ (_onPointerDown c selfId target coordinates pointerId buttonIndex).1.downPointerIds ∧
      (_onPointerDown c selfId target coordinates pointerId buttonIndex).2.1 = true ∧
      notifs (_onPointerDown c selfId target coordinates pointerId buttonIndex).2.2 =
        [Ev.notify selfId Channel.down (Payload.vecInfo coordinates buttonIndex) target]) := by
  constructor
  · intro h
    simp [_onPointerDown, h]
  · intro h
    simp [_onPointerDown, h, mem_insertId]

/-- C4: `_onPointerUp` always resets `_downCount` to 0 and removes the
pointer id from `_downPointerIds`; the click notification fires exactly
when `notifyClick` is true and `_enterCount > 0` at call time, and then it
fires before the up notification; the up notification always fires. -/
theorem onPointerUp_contract (c : ControlState) (selfId target : Nat)
    (coordinates : Vector3) (pointerId buttonIndex : Nat) (notifyClick : Bool) :
    (_onPointerUp c selfId target coordinates pointerId buttonIndex notifyClick).1.downCount = 0 ∧
    pointerId ∉ (_onPointerUp c selfId target coordinates pointerId buttonIndex notifyClick).1.downPointerIds ∧
    notifs (_onPointerUp c selfId target coordinates pointerId buttonIndex notifyClick).2 =
      (if notifyClick = true ∧ 0 < c.enterCount then
        [Ev.notify selfId Channel.click (Payload.vecInfo coordinates buttonIndex) target]
      else []) ++
      [Ev.notify selfId Channel.up (Payload.vecInfo coordinates buttonIndex) target] := by
  refine ⟨rfl, not_mem_removeId _ _, ?_⟩
  simp only [_onPointerUp, notifs_append, notifs_animCall, List.append_nil]
  split <;> simp

/-- C6 counterexample: on a control with `_downCount = 1`, `_enterCount = 1`
and `_downPointerIds = {3}`, calling `forcePointerUp(5)` — an id that is
not down — is not a no-op: notifications fire (click and up) and
`_downCount` changes. -/
theorem forcePointerUp_unknown_id_not_noop :
    5 ∉ ({ ControlState.fresh with
            downCount := 1, enterCount := 1, downPointerIds := [3] } : ControlState).downPointerIds ∧
    notifs (forcePointerUp
        { ControlState.fresh with downCount := 1, enterCount := 1, downPointerIds := [3] }
        0 (some 5)).2 ≠ [] ∧
    (forcePointerUp
        { ControlState.fresh with downCount := 1, enterCount := 1, downPointerIds := [3] }
        0 (some 5)).1.downCount ≠
      ({ ControlState.fresh with
          downCount := 1, enterCount := 1, downPointerIds := [3] } : ControlState).downCount := by
  refine ⟨by decide, by decide, by decide⟩

/-- C6 amended: `forcePointerUp` with a specific pointer id synthesizes a
full up event whether or not the id is in `_downPointerIds`: `_downCount`
resets to 0, the id is absent afterwards, and the up notification fires at
the zero coordinate with button 0 (preceded by click when
`_enterCount > 0`, since the synthesized event has `notifyClick = true`). -/
theorem forcePointerUp_specific_id (c : ControlState) (selfId pid : Nat) :
    (forcePointerUp c selfId (some pid)).1.downCount = 0 ∧
    pid ∉ (forcePointerUp c selfId (some pid)).1.downPointerIds ∧
    notifs (forcePointerUp c selfId (some pid)).2 =
      (if 0 < c.enterCount then
        [Ev.notify selfId Channel.click (Payload.vecInfo Vector3.Zero 0) selfId]
      else []) ++
      [Ev.notify selfId Channel.up (Payload.vecInfo Vector3.Zero 0) selfId] := by
  refine ⟨rfl, not_mem_removeId _ _, ?_⟩
  show notifs (_onPointerUp c selfId selfId Vector3.Zero pid 0 true).2 = _
  simp only [_onPointerUp, notifs_append, notifs_animCall, List.append_nil]
  split <;> split <;> simp_all

theorem forceUpLoop_ids (selfId : Nat) (l : List Nat) :
    ∀ c : ControlState, (∀ x ∈ c.downPointerIds, x ∈ l) →
      (forceUpLoop selfId c l).1.downPointerIds = [] := by
  induction l with
  | nil =>
      intro c h
      exact List.eq_nil_iff_forall_not_mem.mpr fun x hx => by simpa using h x hx
  | cons pid rest ih =>
      intro c h
      simp only [forceUpLoop]
      apply ih
      intro x hx
      simp only [_onPointerUp, removeId, List.mem_filter, decide_eq_true_eq] at hx
      have hmem := h x hx.1
      simp only [List.mem_cons] at hmem
      exact hmem.resolve_left hx.2

theorem forceUpLoop_upFilter (selfId : Nat) (l : List Nat) :
    ∀ c : ControlState,
      (forceUpLoop selfId c l).2.filter isUpNotify =
        List.replicate l.length
          (Ev.notify selfId Channel.up (Payload.vecInfo Vector3.Zero 0) selfId) := by
  induction l with
  | nil => intro c; rfl
  | cons pid rest ih =>
      intro c
      simp only [forceUpLoop, List.filter_append, ih, List.length_cons,
        List.replicate_succ]
      simp only [_onPointerUp, List.filter_append]
      split <;> simp [isUpNotify, animCall]

theorem forceUpLoop_clickFilter (selfId : Nat) (l : List Nat) :
    ∀ c : ControlState,
      (forceUpLoop selfId c l).2.filter isClickNotify =
        List.replicate (if 0 < c.enterCount then l.length else 0)
          (Ev.notify selfId Channel.click (Payload.vecInfo Vector3.Zero 0) selfId) := by
  induction l with
  | nil => intro c; split <;> rfl
  | cons pid rest ih =>
      intro c
      have hinv : ((_onPointerUp c selfId selfId Vector3.Zero pid 0 true).1).enterCount =
          c.enterCount := rfl
      simp only [forceUpLoop, List.filter_append, ih, hinv]
      by_cases h : 0 < c.enterCount
      · simp only [h, if_true, List.length_cons, List.replicate_succ]
        simp only [_onPointerUp, List.filter_append]
        simp [isClickNotify, animCall, h]
      · simp only [h, if_false]
        simp only [_onPointerUp, List.filter_append]
        simp [isClickNotify, animCall, h]

/-- C7: `forcePointerUp` with no pointer id fires exactly one up event at
the zero coordinate for each pointer id currently in `_downPointerIds`
(with `notifyClick = true`, so a click accompanies each when
`_enterCount > 0`), and afterwards `_downPointerIds` is empty. -/
theorem forcePointerUp_all (c : ControlState) (selfId : Nat) :
    (forcePointerUp c selfId none).1.downPointerIds = [] ∧
    (forcePointerUp c selfId none).2.filter isUpNotify =
      List.replicate c.downPointerIds.length
        (Ev.notify selfId Channel.up (Payload.vecInfo Vector3.Zero 0) selfId) ∧
    (forcePointerUp c selfId none).2.filter isClickNotify =
      List.replicate (if 0 < c.enterCount then c.downPointerIds.length else 0)
        (Ev.notify selfId Channel.click (Payload.vecInfo Vector3.Zero 0) selfId) :=
  ⟨forceUpLoop_ids selfId c.downPointerIds c fun _ hx => hx,
   forceUpLoop_upFilter selfId c.downPointerIds c,
   forceUpLoop_clickFilter selfId c.downPointerIds c⟩

theorem enterCalls_stuck (selfId target : Nat) (n : Nat) :
    ∀ c : ControlState, c.enterCount ≠ 0 →
      enterCalls selfId target c n = (c, List.replicate n false, []) := by
  induction n with
  | zero => intro c _; rfl
  | succ n ih =>
      intro c h
      simp [enterCalls, _onPointerEnter, h, ih c h, List.replicate_succ]

/-- C1: Enter/out guard law: starting from a non-hovered control, in any
sequence of `_onPointerEnter` calls only the first returns `true` and
fires the (single) enter notification, every later call returns `false`
and fires nothing; one `_onPointerOut` then resets `_enterCount` to 0 —
a full reset — and fires the out notification, however many suppressed
enter attempts preceded it. -/
theorem enter_out_guard_law (c : ControlState) (selfId target targetOut : Nat) (n : Nat)
    (h : c.enterCount = 0) :
    (enterCalls selfId target c (n + 1)).2.1 = true :: List.replicate n false ∧
    notifs (enterCalls selfId target c (n + 1)).2.2 =
      [Ev.notify selfId Channel.enter (Payload.ctrl selfId) target] ∧
    (_onPointerOut (enterCalls selfId target c (n + 1)).1 selfId targetOut).1.enterCount = 0 ∧
    notifs (_onPointerOut (enterCalls selfId target c (n + 1)).1 selfId targetOut).2 =
      [Ev.notify selfId Channel.out (Payload.ctrl selfId) targetOut] := by
  refine ⟨?_, ?_, ?_, ?_⟩ <;>
    simp [enterCalls, _onPointerEnter, h, enterCalls_stuck selfId target n,
      _onPointerOut]

/-- C2 counterexample: from a fresh world, pointer 1 moves over control 1,
pointer 2 moves over control 0, then pointer 2 moves over control 1. At the
third event `_lastControlOver[2] = 0 ≠ 1`, yet no enter notification fires
on control 1 (its `_enterCount` is already 1 from pointer 1), only the out
on control 0 — so the claimed "exactly one enter notification on B" fails
even in a reachable state. -/
theorem move_routing_enter_suppressed :
    (let w0 : World := ⟨fun _ => ControlState.fresh, ⟨[], [], none⟩⟩
     let w1 := (_processObservables w0 1 POINTERMOVE Vector3.Zero 1 0).1
     let w2 := (_processObservables w1 0 POINTERMOVE Vector3.Zero 2 0).1
     let r := _processObservables w2 1 POINTERMOVE Vector3.Zero 2 0
     lookupA w2.host._lastControlOver 2 = some 0 ∧
     countNotify r.2.2 0 Channel.out = 1 ∧
     countNotify r.2.2 1 Channel.enter = 0 ∧
     r.2.1 = true) := by
  decide

/-- C2 amended: routing a MOVE to control `B` while the manager's
`_lastControlOver[pid]` is a different control `A` fires the move on `B`,
then exactly one out on `A` (targeted at `B`), then — provided `B`'s
`_enterCount` is 0, otherwise the enter is suppressed by the guard —
exactly one enter on `B` (targeted at `B`); afterwards
`_lastControlOver[pid] = B` and the call returns `true`. -/
theorem move_routing_over_switch (w : World) (A B : Nat) (pt : Vector3) (pid btn : Nat)
    (hOver : lookupA w.host._lastControlOver pid = some A)
    (hne : A ≠ B)
    (hEnter : (w.controls B).enterCount = 0) :
    notifs (_processObservables w B POINTERMOVE pt pid btn).2.2 =
      [Ev.notify B Channel.move (Payload.vec pt) B,
       Ev.notify A Channel.out (Payload.ctrl A) B,
       Ev.notify B Channel.enter (Payload.ctrl B) B] ∧
    lookupA (_processObservables w B POINTERMOVE pt pid btn).1.host._lastControlOver pid =
      some B ∧
    (_processObservables w B POINTERMOVE pt pid btn).2.1 = true := by
  refine ⟨?_, ?_, ?_⟩ <;>
    simp [_processObservables, POINTERMOVE, _onPointerMove, hOver, hne, hne.symm,
      hEnter, _onPointerOut, _onPointerEnter]

/-- C3: routing UP through control `B` fires the up notification on the
manager's `_lastControlDown[pid]` control `A` (not necessarily `B`),
targeted at `B`, with `notifyClick = true` — so a click precedes it exactly
when `A`'s `_enterCount > 0`; afterwards the `_lastControlDown` entry for
`pid` is gone and the call returns `true`. With no recorded entry, nothing
fires and the call still returns `true`. -/
theorem up_routing_to_last_down (w : World) (B : Nat) (pt : Vector3) (pid btn : Nat) :
    (∀ A, lookupA w.host._lastControlDown pid = some A →
      notifs (_processObservables w B POINTERUP pt pid btn).2.2 =
        (if 0 < (w.controls A).enterCount then
          [Ev.notify A Channel.click (Payload.vecInfo pt btn) B]
        else []) ++
        [Ev.notify A Channel.up (Payload.vecInfo pt btn) B] ∧
      lookupA (_processObservables w B POINTERUP pt pid btn).1.host._lastControlDown pid =
        none ∧
      (_processObservables w B POINTERUP pt pid btn).2.1 = true) ∧
    (lookupA w.host._lastControlDown pid = none →
      notifs (_processObservables w B POINTERUP pt pid btn).2.2 = [] ∧
      (_processObservables w B POINTERUP pt pid btn).2.1 = true) := by
  constructor
  · intro A hA
    refine ⟨?_, ?_, ?_⟩ <;>
      simp [_processObservables, POINTERUP, POINTERMOVE, POINTERDOWN, hA, _onPointerUp,
        apply_ite notifs]
  · intro hA
    constructor <;>
      simp [_processObservables, POINTERUP, POINTERMOVE, POINTERDOWN, hA]

/-- C10: routing a DOWN through `_processObservables` always records this
control as the manager's `_lastControlDown[pid]` and `_lastPickedControl`
and returns `true`, even when the inner down guard (`_downCount ≠ 0`)
suppresses the down notification. -/
theorem down_routing_records (w : World) (selfId : Nat) (pt : Vector3) (pid btn : Nat) :
    lookupA (_processObservables w selfId POINTERDOWN pt pid btn).1.host._lastControlDown
      pid = some selfId ∧
    (_processObservables w selfId POINTERDOWN pt pid btn).1.host._lastPickedControl =
      some selfId ∧
    (_processObservables w selfId POINTERDOWN pt pid btn).2.1 = true ∧
    ((w.controls selfId).downCount ≠ 0 →
      (_processObservables w selfId POINTERDOWN pt pid btn).2.2 = []) := by
  refine ⟨?_, ?_, ?_, fun h => ?_⟩ <;>
    simp [_processObservables, POINTERDOWN, POINTERMOVE, _onPointerDown, *]

theorem attach_injective : Function.Injective Ev.attach := by
  intro x y h
  injection h

/-- C8: `addBehavior` is idempotent for the same behavior instance: two
calls perform exactly one init, leave the behavior in the list exactly
once, and attach exactly once — immediately when the scene is not loading,
otherwise deferred to exactly one attach when `onDataLoadedObservable`
fires (and none on a second firing). -/
theorem addBehavior_idem (c : ControlState) (s : SceneState) (b : Nat)
    (hb : b ∉ c.behaviors) (hp : b ∉ s.onceCallbacks) :
    (let r1 := addBehavior c s b
     let r2 := addBehavior r1.1 r1.2.1 b
     let tr := r1.2.2 ++ r2.2.2
     tr.count (Ev.init b) = 1 ∧
     r2.1.behaviors.count b = 1 ∧
     (s.isLoading = false →
       tr.count (Ev.attach b) = 1 ∧ r2.2.1 = s) ∧
     (s.isLoading = true →
       tr.count (Ev.attach b) = 0 ∧
       r2.2.1.onceCallbacks.count b = 1 ∧
       (onDataLoaded r2.2.1).2.count (Ev.attach b) = 1 ∧
       (onDataLoaded (onDataLoaded r2.2.1).1).2.count (Ev.attach b) = 0)) := by
  have hcount : c.behaviors.count b = 0 := List.count_eq_zero.mpr hb
  have hpcount : s.onceCallbacks.count b = 0 := List.count_eq_zero.mpr hp
  by_cases hl : s.isLoading <;>
    simp [addBehavior, hb, hl, onDataLoaded, hcount, hpcount,
      List.count_map_of_injective _ Ev.attach attach_injective, List.count_append]

theorem observersFor_onPointerEnter (c : ControlState) (selfId target : Nat) (ch : Channel) :
    observersFor (_onPointerEnter c selfId target).1 ch = observersFor c ch := by
  unfold _onPointerEnter
  split
  · rfl
  · cases ch <;> rfl

theorem observersFor_onPointerDown (c : ControlState) (selfId target : Nat)
    (coordinates : Vector3) (pid btn : Nat) (ch : Channel) :
    observersFor (_onPointerDown c selfId target coordinates pid btn).1 ch =
      observersFor c ch := by
  unfold _onPointerDown
  split
  · rfl
  · cases ch <;> rfl

theorem observersFor_onPointerUp (c : ControlState) (selfId target : Nat)
    (coordinates : Vector3) (pid btn : Nat) (nc : Bool) (ch : Channel) :
    observersFor (_onPointerUp c selfId target coordinates pid btn nc).1 ch =
      observersFor c ch := by
  cases ch <;> rfl

theorem observersFor_forceUpLoop (selfId : Nat) (l : List Nat) :
    ∀ (c : ControlState) (ch : Channel),
      observersFor (forceUpLoop selfId c l).1 ch = observersFor c ch := by
  induction l with
  | nil => intro c ch; rfl
  | cons pid rest ih =>
      intro c ch
      simp only [forceUpLoop]
      rw [ih]
      exact observersFor_onPointerUp c selfId selfId Vector3.Zero pid 0 true ch

theorem observersFor_runOp (c : ControlState) (selfId : Nat) (op : PtrOp) (ch : Channel) :
    observersFor (runOp c selfId op).1 ch = observersFor c ch := by
  cases op with
  | moveOp t v => rfl
  | enterOp t => exact observersFor_onPointerEnter c selfId t ch
  | outOp t => cases ch <;> rfl
  | downOp t v pid b => exact observersFor_onPointerDown c selfId t v pid b ch
  | upOp t v pid b nc => exact observersFor_onPointerUp c selfId t v pid b nc ch
  | forceOp pid =>
      cases pid with
      | none => exact observersFor_forceUpLoop selfId c.downPointerIds c ch
      | some p => exact observersFor_onPointerUp c selfId selfId Vector3.Zero p 0 true ch

theorem deliveriesOf_of_no_observers (c : ControlState) (selfId : Nat)
    (h : ∀ ch, observersFor c ch = []) (tr : List Ev) :
    deliveriesOf c selfId tr = [] := by
  induction tr with
  | nil => rfl
  | cons e rest ih =>
      cases e <;> simp_all [deliveriesOf, h]

theorem observersFor_dispose (c : ControlState) (ch : Channel) :
    observersFor (dispose c).1 ch = [] := by
  cases ch <;> rfl

/-- C9: `dispose` empties the subscriber lists of all six notification
channels — so any pointer operation invoked afterwards delivers nothing to
any subscriber — and its trace is exactly one detach per behavior in the
list, which itself stays unchanged. -/
theorem dispose_contract (c : ControlState) (selfId : Nat) (op : PtrOp) :
    (∀ ch, observersFor (dispose c).1 ch = []) ∧
    (dispose c).2 = c.behaviors.map Ev.detach ∧
    (dispose c).1.behaviors = c.behaviors ∧
    deliveriesOf (runOp (dispose c).1 selfId op).1 selfId
      (runOp (dispose c).1 selfId op).2 = [] ∧
    deliveriesOf (dispose c).1 selfId (runOp (dispose c).1 selfId op).2 = [] := by
  refine ⟨observersFor_dispose c, rfl, rfl, ?_, ?_⟩
  · exact deliveriesOf_of_no_observers _ _ (fun ch => by
      rw [observersFor_runOp]
      exact observersFor_dispose c ch) _
  · exact deliveriesOf_of_no_observers _ _ (observersFor_dispose c) _

/-! ## Witnesses: each claim theorem evaluated at a concrete input -/

/-- Witness for C1: three enters from fresh yield `true, false, false` and
one out resets the counter. -/
theorem enter_out_guard_law_witness :
    (enterCalls 0 0 ControlState.fresh 3).2.1 = [true, false, false] ∧
    (_onPointerOut (enterCalls 0 0 ControlState.fresh 3).1 0 0).1.enterCount = 0 := by
  have h := enter_out_guard_law ControlState.fresh 0 0 0 2 rfl
  exact ⟨by simpa using h.1, h.2.2.1⟩

/-- Witness for C2 (amended): pointer 7 was over control 0, a MOVE routed
to control 1 switches `_lastControlOver` and returns `true`. -/
theorem move_routing_over_switch_witness :
    lookupA (_processObservables ⟨fun _ => ControlState.fresh, ⟨[(7, 0)], [], none⟩⟩
        1 POINTERMOVE Vector3.Zero 7 0).1.host._lastControlOver 7 = some 1 ∧
    (_processObservables ⟨fun _ => ControlState.fresh, ⟨[(7, 0)], [], none⟩⟩
        1 POINTERMOVE Vector3.Zero 7 0).2.1 = true := by
  have h := move_routing_over_switch ⟨fun _ => ControlState.fresh, ⟨[(7, 0)], [], none⟩⟩
    0 1 Vector3.Zero 7 0 rfl (by decide) rfl
  exact ⟨h.2.1, h.2.2⟩

/-- Witness for C3: UP routed through control 1 with `_lastControlDown[7] = 0`
fires up on control 0 targeted at 1; with no entry, nothing fires. -/
theorem up_routing_to_last_down_witness :
    notifs (_processObservables ⟨fun _ => ControlState.fresh, ⟨[], [(7, 0)], none⟩⟩
        1 POINTERUP Vector3.Zero 7 2).2.2 =
      [Ev.notify 0 Channel.up (Payload.vecInfo Vector3.Zero 2) 1] ∧
    notifs (_processObservables ⟨fun _ => ControlState.fresh, ⟨[], [], none⟩⟩
        1 POINTERUP Vector3.Zero 7 2).2.2 = [] := by
  constructor
  · have h := (up_routing_to_last_down ⟨fun _ => ControlState.fresh, ⟨[], [(7, 0)], none⟩⟩
      1 Vector3.Zero 7 2).1 0 rfl
    simpa using h.1
  · exact ((up_routing_to_last_down ⟨fun _ => ControlState.fresh, ⟨[], [], none⟩⟩
      1 Vector3.Zero 7 2).2 rfl).1

/-- Witness for C4: up on a hovered, pressed control with `notifyClick`
fires click then up and resets the down state. -/
theorem onPointerUp_contract_witness :
    (_onPointerUp { ControlState.fresh with
        downCount := 1, enterCount := 1, downPointerIds := [4] } 0 0 Vector3.Zero 4 2 true).1.downCount = 0 ∧
    notifs (_onPointerUp { ControlState.fresh with
        downCount := 1, enterCount := 1, downPointerIds := [4] } 0 0 Vector3.Zero 4 2 true).2 =
      [Ev.notify 0 Channel.click (Payload.vecInfo Vector3.Zero 2) 0,
       Ev.notify 0 Channel.up (Payload.vecInfo Vector3.Zero 2) 0] := by
  have h := onPointerUp_contract { ControlState.fresh with
    downCount := 1, enterCount := 1, downPointerIds := [4] } 0 0 Vector3.Zero 4 2 true
  exact ⟨h.1, by simpa using h.2.2⟩

/-- Witness for C5: a second concurrent down fails its guard; a first down
succeeds. -/
theorem onPointerDown_guard_law_witness :
    _onPointerDown { ControlState.fresh with downCount := 1 } 0 0 Vector3.Zero 5 2 =
      ({ ControlState.fresh with downCount := 1 }, false, []) ∧
    (_onPointerDown ControlState.fresh 0 0 Vector3.Zero 5 2).2.1 = true :=
  ⟨(onPointerDown_guard_law { ControlState.fresh with downCount := 1 }
      0 0 Vector3.Zero 5 2).1 (by decide),
   ((onPointerDown_guard_law ControlState.fresh 0 0 Vector3.Zero 5 2).2 rfl).2.2.1⟩

/-- Witness for C6 (amended): `forcePointerUp(9)` on a fresh control fires
exactly the up notification at the zero coordinate. -/
theorem forcePointerUp_specific_id_witness :
    notifs (forcePointerUp ControlState.fresh 0 (some 9)).2 =
      [Ev.notify 0 Channel.up (Payload.vecInfo Vector3.Zero 0) 0] := by
  simpa using (forcePointerUp_specific_id ControlState.fresh 0 9).2.2

/-- Witness for C7: two ids down, `forcePointerUp(none)` fires two ups and
empties `_downPointerIds`. -/
theorem forcePointerUp_all_witness :
    (forcePointerUp { ControlState.fresh with
        downCount := 1, downPointerIds := [3, 8] } 0 none).1.downPointerIds = [] ∧
    (forcePointerUp { ControlState.fresh with
        downCount := 1, downPointerIds := [3, 8] } 0 none).2.filter isUpNotify =
      List.replicate 2 (Ev.notify 0 Channel.up (Payload.vecInfo Vector3.Zero 0) 0) := by
  have h := forcePointerUp_all { ControlState.fresh with
    downCount := 1, downPointerIds := [3, 8] } 0
  exact ⟨h.1, by simpa using h.2.1⟩

/-- Witness for C8: adding behavior 5 twice attaches once immediately when
not loading, and exactly once at load completion when loading. -/
theorem addBehavior_idem_witness :
    (let r1 := addBehavior ControlState.fresh ⟨false, []⟩ 5
     let r2 := addBehavior r1.1 r1.2.1 5
     (r1.2.2 ++ r2.2.2).count (Ev.attach 5) = 1) ∧
    (let r1 := addBehavior ControlState.fresh ⟨true, []⟩ 5
     let r2 := addBehavior r1.1 r1.2.1 5
     (onDataLoaded r2.2.1).2.count (Ev.attach 5) = 1) := by
  constructor
  · exact ((addBehavior_idem ControlState.fresh ⟨false, []⟩ 5 (by decide)
      (by decide)).2.2.1 rfl).1
  · exact ((addBehavior_idem ControlState.fresh ⟨true, []⟩ 5 (by decide)
      (by decide)).2.2.2 rfl).2.2.1

/-- Witness for C9: after disposing a control with subscribers, an enter
operation delivers nothing. -/
theorem dispose_contract_witness :
    deliveriesOf (dispose { ControlState.fresh with enterObservers := [1, 2] }).1 0
      (runOp (dispose { ControlState.fresh with enterObservers := [1, 2] }).1 0
        (PtrOp.enterOp 0)).2 = [] :=
  (dispose_contract { ControlState.fresh with enterObservers := [1, 2] } 0
    (PtrOp.enterOp 0)).2.2.2.2

/-- Witness for C10: a DOWN routed to control 3 whose `_downCount` is
already 1 fires nothing yet still records control 3 in the manager. -/
theorem down_routing_records_witness :
    lookupA (_processObservables
        ⟨fun _ => { ControlState.fresh with downCount := 1 }, ⟨[], [], none⟩⟩
        3 POINTERDOWN Vector3.Zero 6 0).1.host._lastControlDown 6 = some 3 ∧
    (_processObservables
        ⟨fun _ => { ControlState.fresh with downCount := 1 }, ⟨[], [], none⟩⟩
        3 POINTERDOWN Vector3.Zero 6 0).2.2 = [] := by
  have h := down_routing_records
    ⟨fun _ => { ControlState.fresh with downCount := 1 }, ⟨[], [], none⟩⟩
    3 Vector3.Zero 6 0
  exact ⟨h.1, h.2.2.2 (by decide)⟩

end BabylonGUI
